import Mathlib

/-!
Verification of the Gadgetbridge command bridge (wasp/gadgetbridge.py).

The dispatcher `GB`, the admission filter `filter_notifications`, the
safety-net callback `vibration_timeout` and the error reporter
`error_to_notification` are embedded shallowly.  Python dictionaries
become association lists over string keys, the mutable system context
becomes an explicit `SysState`, and the observable side effects
(vibrator pulses, pin writes, alarm registration, display wake, UI
switch, sleeps, transport diagnostics) are recorded as an ordered
`Event` trace.  An exception escaping a handler inside the try block is
carried as an `Option String` in `TryRes`; an exception escaping `GB`
itself is the `Except.error` case of its result.
-/

/-- JSON-ish scalar values carried by inbound mappings (string, integer
or boolean, as in the documented message schemas). -/
inductive Value where
  | str (s : String)
  | int (n : Int)
  | bool (b : Bool)
deriving DecidableEq, Repr

/-- An inbound mapping / notification payload: an association list from
string field names to values, in insertion order (a Python dict). -/
abbrev Payload := List (String × Value)

/-- The notification store: keys are the raw Python values passed to
`wasp.system.notify` (an integer id on the notify path, a string on the
call and error paths). -/
abbrev Store := List (Value × Payload)

/-- Python `str()` of a scalar value. -/
def pyStr : Value → String
  | .str s => s
  | .int n => toString n
  | .bool b => if b then "True" else "False"

/-- Python truthiness of a scalar value (`not v` negates this). -/
def pyTruthy : Value → Bool
  | .str s => !(s == "")
  | .int n => !(n == 0)
  | .bool b => b

/-- Is `needle` a leading segment of `hay`? (char-list helper). -/
def chPre : List Char → List Char → Bool
  | [], _ => true
  | _ :: _, [] => false
  | a :: as, b :: bs => a == b && chPre as bs

/-- Does `needle` occur contiguously inside `hay`? (char-list helper). -/
def chInf : List Char → List Char → Bool
  | needle, [] => chPre needle []
  | needle, b :: bs => chPre needle (b :: bs) || chInf needle bs

/-- Python `needle in hay` on strings: substring containment. -/
def pyIn (needle hay : String) : Bool :=
  chInf needle.toList hay.toList

/-- Python `s.lower()` (character-wise, as these ASCII uses need). -/
def pyLower (s : String) : String :=
  String.mk (s.data.map Char.toLower)

/-- Python `s.upper()` (character-wise, as these ASCII uses need). -/
def pyUpper (s : String) : String :=
  String.mk (s.data.map Char.toUpper)

/-- Dict lookup: first binding of key `k`. -/
def lookupP (k : String) : Payload → Option Value
  | [] => none
  | (k₁, v) :: rest => if k₁ = k then some v else lookupP k rest

/-- Dict `del d[k]`: drop the binding of key `k` (used only after a
successful lookup). -/
def removeP (k : String) : Payload → Payload
  | [] => []
  | (k₁, v) :: rest => if k₁ = k then rest else (k₁, v) :: removeP k rest

/-- Modelled from the spec: `insert(id, payload)` of the Notification
Store (`wasp.system.notify`, whose implementation is outside this
repository slice) — overwrite semantics keyed by id, keeping the
position of an overwritten entry, appending a new id at the end
(insertion-order iteration). -/
def notifInsert (k : Value) (p : Payload) : Store → Store
  | [] => [(k, p)]
  | (k₁, p₁) :: rest =>
      if k₁ = k then (k, p) :: rest else (k₁, p₁) :: notifInsert k p rest

/-- Modelled from the spec: `remove(id)` of the Notification Store
(`wasp.system.unnotify`, outside this repository slice) — remove the
entry under `id` if present; absence is a no-op, not an error. -/
def notifRemove (k : Value) (s : Store) : Store :=
  s.filter (fun kv => decide (kv.1 ≠ k))

/-- Store lookup by key. -/
def lookupStore (k : Value) : Store → Option Payload
  | [] => none
  | (k₁, p) :: rest => if k₁ = k then some p else lookupStore k rest

/-- The scheduled-callback identity passed to `wasp.system.set_alarm`. -/
inductive Callback where
  | vibrationTimeout
deriving DecidableEq, Repr

/-- Observable side effects, in program order. -/
inductive Event where
  | setAlarm (time : Int) (cb : Callback)
  | pinWrite (b : Bool)
  | pulse (ms : Int)
  | wake
  | switchNotifier
  | sleepMs (ms : Nat)
  | errorOut (msg : String)
  | toggleMusic (p : Payload)
  | setMusicInfo (p : Payload)
  | setWeatherInfo (p : Payload)
deriving DecidableEq, Repr

/-- The mutable system context touched by the bridge: the notification
filter attribute (`none` models the attribute being absent), the
notification store, the notification level and pulse duration, the
vibrator pin state (the pin reads back what was last driven; per the
source comment in `vibration_timeout`, a `false` pin value means the
motor is vibrating and `true` means stopped), the registered alarms and
the current RTC time. -/
structure SysState where
  notifFilter : Option (List String)
  notifications : Store
  notify_level : Int
  notify_duration : Int
  vibPin : Bool
  alarms : List (Int × Callback)
  now : Int
deriving DecidableEq, Repr

/-- `filter_notifications(msg)`: admit a notification payload.  Returns
`true` when the system has no `_notif_filter` attribute; otherwise scans
every configured substring against every key and every stringified
value, case-insensitively, and returns `true` on the first hit, `false`
when the loops finish without one. -/
def filter_notifications (filt : Option (List String)) (msg : Payload) : Bool :=
  match filt with
  | none => true
  | some checks =>
      checks.any fun check =>
        msg.any fun kv =>
          pyIn (pyLower check) (pyLower kv.1) ||
            pyIn (pyLower check) (pyLower (pyStr kv.2))

/-- `vibration_timeout()`: the safety-net callback.  If the pin reads
`false` (still vibrating) it drives the pin to `true` (stopped);
otherwise it does nothing. -/
def vibration_timeout (st : SysState) : SysState × List Event :=
  if !st.vibPin then ({ st with vibPin := true }, [Event.pinWrite true])
  else (st, [])

/-- `error_to_notification(title, msg)`: insert a notification under the
string key `title` with that title and `msg` as body, then pulse the
vibrator once unless the notification level is at or below the silent
threshold. -/
def error_to_notification (title msg : String) (st : SysState) :
    SysState × List Event :=
  let store := notifInsert (Value.str title)
    [("title", Value.str title), ("body", Value.str msg)] st.notifications
  let st₁ := { st with notifications := store }
  if st.notify_level ≤ 1 then (st₁, []) else (st₁, [Event.pulse st.notify_duration])

/-- Result of the body of the try block: the state and events produced
so far, and the text of an exception if one was raised (to be caught by
the except clause). -/
structure TryRes where
  st : SysState
  evts : List Event
  exc : Option String
deriving Repr

/-- Join `k:v` pairs of a payload with `/`, as the Python
`"/".join(["{}:{}".format(k, v) ...])` does. -/
def joinItems (cmd : Payload) : String :=
  String.intercalate "/" (cmd.map fun kv => kv.1 ++ ":" ++ pyStr kv.2)

/-- The `find` branch: register the safety-net alarm for now+5 with the
`vibration_timeout` callback (this happens before `n` is read), then
drive the vibrator pin to the negation of the truthiness of `n`.  A
missing `n` raises a KeyError after the alarm is registered. -/
def handleFind (cmd : Payload) (st : SysState) : TryRes :=
  let st₁ := { st with alarms := st.alarms ++ [(st.now + 5, Callback.vibrationTimeout)] }
  let e₁ := [Event.setAlarm (st.now + 5) Callback.vibrationTimeout]
  match lookupP "n" cmd with
  | none => ⟨st₁, e₁, some "KeyError: n"⟩
  | some n =>
      let b := !(pyTruthy n)
      ⟨{ st₁ with vibPin := b }, e₁ ++ [Event.pinWrite b], none⟩

/-- The `notify` branch: if the filter admits the payload (tag already
removed, id still present), read and delete `id`, pulse the vibrator for
the configured duration and insert the remaining fields under `id`.  A
rejected payload leaves everything unchanged. -/
def handleNotify (cmd : Payload) (st : SysState) : TryRes :=
  if filter_notifications st.notifFilter cmd then
    match lookupP "id" cmd with
    | none => ⟨st, [], some "KeyError: id"⟩
    | some idv =>
        let cmd₂ := removeP "id" cmd
        ⟨{ st with notifications := notifInsert idv cmd₂ st.notifications },
         [Event.pulse st.notify_duration], none⟩
  else ⟨st, [], none⟩

/-- The `notify-` branch: remove the entry under `id` from the store
(`wasp.system.unnotify`); a missing `id` field raises a KeyError. -/
def handleNotifyDel (cmd : Payload) (st : SysState) : TryRes :=
  match lookupP "id" cmd with
  | none => ⟨st, [], some "KeyError: id"⟩
  | some idv =>
      ⟨{ st with notifications := notifRemove idv st.notifications }, [], none⟩

/-- The `call` branch (`task` equals `"call"` here): validate
`cmd["cmd"]` against incoming/outgoing (anything else raises), build the
notification under the string key `"call"` with title `task.upper()` and
body `"{name} at {number}\n{rest}"`, then unless the level is at or
below silent: wake, switch to the notifier and run three
pulse-then-sleep iterations. -/
def handleCall (cmd : Payload) (st : SysState) : TryRes :=
  match lookupP "cmd" cmd with
  | none => ⟨st, [], some "KeyError: cmd"⟩
  | some c =>
      if !(c == Value.str "incoming" || c == Value.str "outgoing") then
        ⟨st, [], some "Untested call notif"⟩
      else
        let name := match lookupP "name" cmd with
          | some v => pyStr v
          | none => ""
        let number := match lookupP "number" cmd with
          | some v => pyStr v
          | none => ""
        let rest := String.intercalate "/"
          ((cmd.filter fun kv => !(kv.1 == "number") && !(kv.1 == "name")).map
            fun kv => kv.1 ++ ":" ++ pyStr kv.2)
        let body := name ++ " at " ++ number ++ "\n" ++ rest
        let store := notifInsert (Value.str "call")
          [("title", Value.str (pyUpper "call")), ("body", Value.str body)]
          st.notifications
        let st₁ := { st with notifications := store }
        if st.notify_level ≤ 1 then ⟨st₁, [], none⟩
        else
          ⟨st₁,
           [Event.wake, Event.switchNotifier] ++
             (List.replicate 3 [Event.pulse st.notify_duration, Event.sleepMs 300]).flatten,
           none⟩

/-- The final `else` branch: report an unimplemented task through
`error_to_notification` under the title `GB_no_task`. -/
def handleDefault (task : Value) (cmd : Payload) (st : SysState) : TryRes :=
  let msg := "GadgetBridge task not implemented: \"" ++ pyStr task ++ "\": \"" ++
    joinItems cmd ++ "\""
  let r := error_to_notification "GB_no_task" msg st
  ⟨r.1, r.2, none⟩

/-- The body of the try block of `GB`: dispatch on the task tag. -/
def gbTry (task : Value) (cmd : Payload) (st : SysState) : TryRes :=
  if task = Value.str "find" then handleFind cmd st
  else if task = Value.str "notify" then handleNotify cmd st
  else if task = Value.str "notify-" then handleNotifyDel cmd st
  else if task = Value.str "call" then handleCall cmd st
  else if task = Value.str "musicstate" then ⟨st, [Event.toggleMusic cmd], none⟩
  else if task = Value.str "musicinfo" then ⟨st, [Event.setMusicInfo cmd], none⟩
  else if task = Value.str "weather" then ⟨st, [Event.setWeatherInfo cmd], none⟩
  else handleDefault task cmd st

/-- `GB(cmd)`: the dispatcher.  `task = cmd["t"]; del cmd["t"]` runs
before the try block, so a missing tag raises a KeyError that escapes
`GB` itself (the `Except.error` case).  Everything raised inside the try
block is caught: the except clause writes a diagnostic to the transport
and reports the failure as a `GB_except` notification. -/
def GB (cmd : Payload) (st : SysState) : Except String (SysState × List Event) :=
  match lookupP "t" cmd with
  | none => .error "KeyError: t"
  | some task =>
      let cmd₂ := removeP "t" cmd
      let r := gbTry task cmd₂ st
      match r.exc with
      | none => .ok (r.st, r.evts)
      | some e =>
          let r₂ := error_to_notification "GB_except"
            ("GB error: " ++ e ++ " -  " ++ pyStr task ++ ":" ++ joinItems cmd₂) r.st
          .ok (r₂.1, r.evts ++ [Event.errorOut e] ++ r₂.2)

/-- Events of a completed dispatch (empty when the dispatch itself
raised). -/
def gbEvents (r : Except String (SysState × List Event)) : List Event :=
  match r with
  | .ok p => p.2
  | .error _ => []

/-- State of a completed dispatch, defaulting to `st` when the dispatch
raised. -/
def gbState (st : SysState) (r : Except String (SysState × List Event)) : SysState :=
  match r with
  | .ok p => p.1
  | .error _ => st

/-- Number of vibrator pulses in a trace. -/
def pulseCount (evts : List Event) : Nat :=
  evts.countP fun e => match e with
    | Event.pulse _ => true
    | _ => false

/-- The vibrating-state reading of the pin, from the source comment in
`vibration_timeout`: a `false` pin value means the motor is running. -/
def isVibrating (st : SysState) : Bool :=
  !st.vibPin

/-- A convenient concrete baseline state: no filter attribute, empty
store, silent level 1, duration 50, pin stopped, no alarms, time 1000. -/
def st0 : SysState :=
  ⟨none, [], 1, 50, true, [], 1000⟩

/-- The same baseline above the silent threshold. -/
def stLoud : SysState :=
  ⟨none, [], 2, 50, true, [], 1000⟩

/-- The baseline state while the motor is vibrating (pin low). -/
def stVib : SysState :=
  ⟨none, [], 1, 50, false, [], 1000⟩

/-- Did a dispatch complete without an exception escaping it? -/
def gbOk (r : Except String (SysState × List Event)) : Bool :=
  match r with
  | .ok _ => true
  | .error _ => false

/-- The title field of the notification stored under `k`, if any. -/
def storedTitle (k : Value) (s : Store) : Option Value :=
  (lookupStore k s).bind (lookupP "title")

/-- Is a store key an integer id? -/
def isIntKey : Value → Bool
  | .int _ => true
  | _ => false

/-- The admission rule as the specification words it: true when the
Filter Set (taken as a set of substrings, absent attribute meaning the
empty set) is empty, or when some filter substring case-insensitively
occurs in some key or stringified value of the payload.  Stated
separately from `filter_notifications` to compare the two. -/
def admitClaim (filt : Option (List String)) (msg : Payload) : Bool :=
  let checks := filt.getD []
  checks.isEmpty ||
    checks.any fun check =>
      msg.any fun kv =>
        pyIn (pyLower check) (pyLower kv.1) ||
          pyIn (pyLower check) (pyLower (pyStr kv.2))

/-! ## Store lemmas -/

/-- Inserting under a key makes it retrievable with exactly that payload. -/
theorem lookupStore_notifInsert_self (k : Value) (p : Payload) (s : Store) :
    lookupStore k (notifInsert k p s) = some p := by
  induction s with
  | nil => simp [notifInsert, lookupStore]
  | cons hd tl ih =>
      obtain ⟨k₁, p₁⟩ := hd
      by_cases h : k₁ = k
      · simp [notifInsert, h, lookupStore]
      · simp [notifInsert, h, lookupStore, ih]

/-- Inserting under one key leaves lookups of other keys unchanged. -/
theorem lookupStore_notifInsert_ne (k k₂ : Value) (h : k₂ ≠ k) (p : Payload)
    (s : Store) : lookupStore k₂ (notifInsert k p s) = lookupStore k₂ s := by
  induction s with
  | nil => simp [notifInsert, lookupStore, Ne.symm h]
  | cons hd tl ih =>
      obtain ⟨k₁, p₁⟩ := hd
      by_cases hk : k₁ = k
      · subst hk
        simp [notifInsert, lookupStore, h, Ne.symm h]
      · simp [notifInsert, hk, lookupStore, ih]

/-- After removing a key, looking it up yields nothing. -/
theorem lookupStore_notifRemove_self (k : Value) (s : Store) :
    lookupStore k (notifRemove k s) = none := by
  induction s with
  | nil => rfl
  | cons hd tl ih =>
      obtain ⟨k₁, p₁⟩ := hd
      by_cases h : k₁ = k
      · simpa [notifRemove, List.filter_cons, h] using ih
      · simpa [notifRemove, List.filter_cons, h, lookupStore] using ih

/-- Removing an absent key is the identity on the store. -/
theorem notifRemove_absent (k : Value) (s : Store)
    (h : lookupStore k s = none) : notifRemove k s = s := by
  induction s with
  | nil => rfl
  | cons hd tl ih =>
      obtain ⟨k₁, p₁⟩ := hd
      by_cases hk : k₁ = k
      · simp [lookupStore, hk] at h
      · have h₂ : lookupStore k tl = none := by simpa [lookupStore, hk] using h
        simpa [notifRemove, List.filter_cons, hk] using ih h₂

/-! ## Claim theorems -/

/-- C1, counterexample: a mapping without the tag field makes the
KeyError from `cmd["t"]` escape `GB` itself (the tag is read before the
try block begins), so dispatch does raise past its own boundary. -/
theorem GB_missing_tag_raises :
    GB [("n", Value.bool true)] st0 = Except.error "KeyError: t" := rfl

/-- C1, amended: for every inbound mapping that does carry the tag field
`t`, dispatch never raises past its own boundary — every failure inside
a handler is caught by the except clause and control returns to the
caller. -/
theorem GB_no_raise_with_tag (cmd : Payload) (st : SysState)
    (h : (lookupP "t" cmd).isSome = true) : gbOk (GB cmd st) = true := by
  unfold GB
  cases hl : lookupP "t" cmd with
  | none => simp [hl] at h
  | some task =>
      simp only [hl]
      cases (gbTry task (removeP "t" cmd) st).exc <;> rfl

/-- Witness for `GB_no_raise_with_tag` at a concrete weather message. -/
theorem GB_no_raise_with_tag_witness :
    (lookupP "t" [("t", Value.str "weather")]).isSome = true ∧
    gbOk (GB [("t", Value.str "weather")] st0) = true :=
  ⟨rfl, GB_no_raise_with_tag [("t", Value.str "weather")] st0 rfl⟩

/-- C2, counterexample: with the Filter Set configured but empty, the
claim (stated by `admitClaim`) admits every payload, while the code
admits none — the loops never execute and the function falls through to
`False`. -/
theorem filter_empty_list_rejects :
    admitClaim (some []) [("a", Value.str "b")] = true ∧
    filter_notifications (some []) [("a", Value.str "b")] = false :=
  ⟨rfl, rfl⟩

/-- C2, amended: the admit function returns true iff the filter
attribute is absent, or some configured filter substring
case-insensitively occurs in some key or stringified value of the
payload; a configured-but-empty Filter Set therefore admits nothing. -/
theorem filter_admit_iff (filt : Option (List String)) (msg : Payload) :
    filter_notifications filt msg = true ↔
      (filt = none ∨ ∃ check ∈ filt.getD [], ∃ kv ∈ msg,
        (pyIn (pyLower check) (pyLower kv.1) = true ∨
         pyIn (pyLower check) (pyLower (pyStr kv.2)) = true)) := by
  cases filt with
  | none => simp [filter_notifications]
  | some checks => simp [filter_notifications, List.any_eq_true]

/-- C3, counterexample: the call notification's title is the uppercased
task tag `"CALL"`, not the uppercased cmd value `"INCOMING"` (the body
does contain "Alice at +491234"). -/
theorem call_title_not_INCOMING :
    (gbState st0 (GB [("t", Value.str "call"), ("cmd", Value.str "incoming"),
        ("name", Value.str "Alice"), ("number", Value.str "+491234")] st0)).notifications =
      [(Value.str "call",
        [("title", Value.str "CALL"),
         ("body", Value.str "Alice at +491234\ncmd:incoming")])] ∧
    Value.str "CALL" ≠ Value.str "INCOMING" :=
  ⟨by decide, by decide⟩

/-- C3, amended: dispatching that call message produces exactly one
notification, stored under the string key "call", titled "CALL" (the
uppercased task tag), whose body contains "Alice at +491234". -/
theorem call_incoming_notification :
    (gbState st0 (GB [("t", Value.str "call"), ("cmd", Value.str "incoming"),
        ("name", Value.str "Alice"), ("number", Value.str "+491234")] st0)).notifications =
      [(Value.str "call",
        [("title", Value.str "CALL"),
         ("body", Value.str "Alice at +491234\ncmd:incoming")])] ∧
    pyIn "Alice at +491234" "Alice at +491234\ncmd:incoming" = true :=
  ⟨by decide, by decide⟩

/-- C4: a call message whose cmd value is neither "incoming" nor
"outgoing" is a handler failure: the dispatch completes without raising,
a notification titled "GB_except" is inserted, and no call notification
is inserted (the entry under the key "call" is whatever it was
before). -/
theorem call_rejected_gb_except (c : Value) (st : SysState)
    (h₁ : c ≠ Value.str "incoming") (h₂ : c ≠ Value.str "outgoing") :
    gbOk (GB [("t", Value.str "call"), ("cmd", c)] st) = true ∧
    storedTitle (Value.str "GB_except")
        (gbState st (GB [("t", Value.str "call"), ("cmd", c)] st)).notifications =
      some (Value.str "GB_except") ∧
    lookupStore (Value.str "call")
        (gbState st (GB [("t", Value.str "call"), ("cmd", c)] st)).notifications =
      lookupStore (Value.str "call") st.notifications := by
  have hb₁ : (c == Value.str "incoming") = false := beq_eq_false_iff_ne.mpr h₁
  have hb₂ : (c == Value.str "outgoing") = false := beq_eq_false_iff_ne.mpr h₂
  have htry : gbTry (Value.str "call") [("cmd", c)] st =
      ⟨st, [], some "Untested call notif"⟩ := by
    simp [gbTry, handleCall, lookupP, hb₁, hb₂]
  have hgb : GB [("t", Value.str "call"), ("cmd", c)] st =
      .ok ((error_to_notification "GB_except"
              ("GB error: " ++ "Untested call notif" ++ " -  " ++
                pyStr (Value.str "call") ++ ":" ++ joinItems [("cmd", c)]) st).1,
           [] ++ [Event.errorOut "Untested call notif"] ++
             (error_to_notification "GB_except"
              ("GB error: " ++ "Untested call notif" ++ " -  " ++
                pyStr (Value.str "call") ++ ":" ++ joinItems [("cmd", c)]) st).2) := by
    unfold GB
    simp only [show lookupP "t" [("t", Value.str "call"), ("cmd", c)] =
        some (Value.str "call") from rfl,
      show removeP "t" [("t", Value.str "call"), ("cmd", c)] = [("cmd", c)] from rfl,
      htry]
  refine ⟨?_, ?_, ?_⟩
  · rw [hgb]; rfl
  · rw [hgb]
    simp only [gbState, error_to_notification]
    split <;>
      simp [storedTitle, lookupStore_notifInsert_self, lookupP]
  · rw [hgb]
    simp only [gbState, error_to_notification]
    split <;>
      exact lookupStore_notifInsert_ne _ _ (by decide) _ _

/-- Witness for `call_rejected_gb_except` at cmd="rejected". -/
theorem call_rejected_gb_except_witness :
    Value.str "rejected" ≠ Value.str "incoming" ∧
    Value.str "rejected" ≠ Value.str "outgoing" ∧
    (gbOk (GB [("t", Value.str "call"), ("cmd", Value.str "rejected")] st0) = true ∧
     storedTitle (Value.str "GB_except")
         (gbState st0 (GB [("t", Value.str "call"),
           ("cmd", Value.str "rejected")] st0)).notifications =
       some (Value.str "GB_except") ∧
     lookupStore (Value.str "call")
         (gbState st0 (GB [("t", Value.str "call"),
           ("cmd", Value.str "rejected")] st0)).notifications =
       lookupStore (Value.str "call") st0.notifications) :=
  ⟨by decide, by decide,
   call_rejected_gb_except (Value.str "rejected") st0 (by decide) (by decide)⟩

/-- C5: a notify message admitted by the filter inserts its payload
under the id; a following notify- with the same id leaves the store
without that id; and a notify- for an id that is not in the store is a
no-op — the state is returned unchanged, with no events and no error
surfaced.  (The store operations themselves are modelled from the spec,
as `wasp.system.notify` and `wasp.system.unnotify` are outside this
repository slice.) -/
theorem notify_then_unnotify (idv : Value) (p : Payload) (st st' : SysState)
    (hadm : filter_notifications st.notifFilter (("id", idv) :: p) = true)
    (habs : lookupStore idv st'.notifications = none) :
    lookupStore idv
        (gbState st (GB (("t", Value.str "notify") :: ("id", idv) :: p) st)).notifications =
      some p ∧
    lookupStore idv
        (gbState (gbState st (GB (("t", Value.str "notify") :: ("id", idv) :: p) st))
          (GB [("t", Value.str "notify-"), ("id", idv)]
            (gbState st (GB (("t", Value.str "notify") :: ("id", idv) :: p) st)))).notifications =
      none ∧
    GB [("t", Value.str "notify-"), ("id", idv)] st' = .ok (st', []) := by
  have hdel : ∀ s : SysState, GB [("t", Value.str "notify-"), ("id", idv)] s =
      .ok ({ s with notifications := notifRemove idv s.notifications }, []) := by
    intro s; rfl
  have hins : GB (("t", Value.str "notify") :: ("id", idv) :: p) st =
      .ok ({ st with notifications := notifInsert idv p st.notifications },
           [Event.pulse st.notify_duration]) := by
    unfold GB
    simp only [show lookupP "t" (("t", Value.str "notify") :: ("id", idv) :: p) =
        some (Value.str "notify") from rfl,
      show removeP "t" (("t", Value.str "notify") :: ("id", idv) :: p) =
        ("id", idv) :: p from rfl]
    simp [gbTry, handleNotify, hadm, lookupP, removeP]
  refine ⟨?_, ?_, ?_⟩
  · rw [hins]
    simp [gbState, lookupStore_notifInsert_self]
  · rw [hdel]
    simp [gbState, lookupStore_notifRemove_self]
  · rw [hdel st', notifRemove_absent idv _ habs]

/-- Witness for `notify_then_unnotify` at id 7 on the baseline state. -/
theorem notify_then_unnotify_witness :
    filter_notifications st0.notifFilter
        (("id", Value.int 7) :: [("title", Value.str "hi")]) = true ∧
    lookupStore (Value.int 7) st0.notifications = none ∧
    (lookupStore (Value.int 7)
         (gbState st0 (GB (("t", Value.str "notify") :: ("id", Value.int 7) ::
           [("title", Value.str "hi")]) st0)).notifications =
       some [("title", Value.str "hi")] ∧
     lookupStore (Value.int 7)
         (gbState (gbState st0 (GB (("t", Value.str "notify") :: ("id", Value.int 7) ::
             [("title", Value.str "hi")]) st0))
           (GB [("t", Value.str "notify-"), ("id", Value.int 7)]
             (gbState st0 (GB (("t", Value.str "notify") :: ("id", Value.int 7) ::
               [("title", Value.str "hi")]) st0)))).notifications =
       none ∧
     GB [("t", Value.str "notify-"), ("id", Value.int 7)] st0 = .ok (st0, [])) :=
  ⟨rfl, rfl,
   notify_then_unnotify (Value.int 7) [("title", Value.str "hi")] st0 st0 rfl rfl⟩

/-- C6, counterexample: dispatching {t:"alarm"} is not a no-op — the
Notification Store changes from empty to holding a "GB_no_task"
notification (the tag falls through to the unsupported-task branch). -/
theorem alarm_not_noop :
    st0.notifications = [] ∧
    (gbState st0 (GB [("t", Value.str "alarm")] st0)).notifications =
      [(Value.str "GB_no_task",
        [("title", Value.str "GB_no_task"),
         ("body", Value.str "GadgetBridge task not implemented: \"alarm\": \"\"")])] :=
  ⟨rfl, by decide⟩

/-- C6, amended: "alarm" and "vibrate" are not handled by any branch of
the dispatcher; they take the unsupported-task path, which inserts a
"GB_no_task" notification (and pulses once above the silent threshold)
— no alarm is registered and the vibration pin is not driven. -/
theorem alarm_vibrate_unsupported (st : SysState) :
    GB [("t", Value.str "alarm")] st =
      .ok ((error_to_notification "GB_no_task"
              "GadgetBridge task not implemented: \"alarm\": \"\"" st).1,
           (error_to_notification "GB_no_task"
              "GadgetBridge task not implemented: \"alarm\": \"\"" st).2) ∧
    GB [("t", Value.str "vibrate")] st =
      .ok ((error_to_notification "GB_no_task"
              "GadgetBridge task not implemented: \"vibrate\": \"\"" st).1,
           (error_to_notification "GB_no_task"
              "GadgetBridge task not implemented: \"vibrate\": \"\"" st).2) ∧
    (gbState st (GB [("t", Value.str "alarm")] st)).vibPin = st.vibPin ∧
    (gbState st (GB [("t", Value.str "alarm")] st)).alarms = st.alarms ∧
    (gbState st (GB [("t", Value.str "vibrate")] st)).vibPin = st.vibPin ∧
    (gbState st (GB [("t", Value.str "vibrate")] st)).alarms = st.alarms := by
  have ha : GB [("t", Value.str "alarm")] st =
      .ok ((error_to_notification "GB_no_task"
              "GadgetBridge task not implemented: \"alarm\": \"\"" st).1,
           (error_to_notification "GB_no_task"
              "GadgetBridge task not implemented: \"alarm\": \"\"" st).2) := rfl
  have hv : GB [("t", Value.str "vibrate")] st =
      .ok ((error_to_notification "GB_no_task"
              "GadgetBridge task not implemented: \"vibrate\": \"\"" st).1,
           (error_to_notification "GB_no_task"
              "GadgetBridge task not implemented: \"vibrate\": \"\"" st).2) := rfl
  refine ⟨ha, hv, ?_, ?_, ?_, ?_⟩ <;>
    · first
      | (rw [ha]; simp [gbState, error_to_notification]; split <;> rfl)
      | (rw [hv]; simp [gbState, error_to_notification]; split <;> rfl)

/-- C7, counterexample: dispatching {t:"find", n:false} on a state whose
motor is running drives the pin to true, which by the convention of the
source (`vibration_timeout` reads a false pin as "is vibrating") is the
stopped state, not the vibrating state the claim asserts. -/
theorem find_false_not_vibrating :
    isVibrating stVib = true ∧
    isVibrating (gbState stVib
      (GB [("t", Value.str "find"), ("n", Value.bool false)] stVib)) = false :=
  ⟨rfl, rfl⟩

/-- C7, amended: every find command (whatever `n` is) first arms the
one-shot safety-net alarm at now+5 with the `vibration_timeout`
callback, then drives the vibration pin to the inverse of n — so n=false
yields pin=true, the stopped state (n=true is what starts the
vibration); and the callback, whenever it fires, forces the pin to the
stopped state exactly when the pin still indicates vibrating, doing
nothing otherwise. -/
theorem find_pin_and_safety_net (st : SysState) (n : Value) :
    GB [("t", Value.str "find"), ("n", n)] st =
      .ok ({ st with alarms := st.alarms ++ [(st.now + 5, Callback.vibrationTimeout)],
                     vibPin := !(pyTruthy n) },
           [Event.setAlarm (st.now + 5) Callback.vibrationTimeout,
            Event.pinWrite (!(pyTruthy n))]) ∧
    vibration_timeout st =
      (if isVibrating st then ({ st with vibPin := true }, [Event.pinWrite true])
       else (st, [])) :=
  ⟨rfl, rfl⟩

/-- C8: for a valid call message (cmd "incoming" or "outgoing", with any
further fields), no exception escapes, and the trace after the
notification insert is: wake, switch to the notifier view, then exactly
three iterations of a pulse of the configured duration followed by a
0.3s sleep — when the notification level is above the silent threshold;
below or at it, no wake, switch or vibration occurs at all. -/
theorem call_alert_sequence (c : String) (hc : c = "incoming" ∨ c = "outgoing")
    (rest : Payload) (st : SysState) :
    gbOk (GB (("t", Value.str "call") :: ("cmd", Value.str c) :: rest) st) = true ∧
    gbEvents (GB (("t", Value.str "call") :: ("cmd", Value.str c) :: rest) st) =
      (if st.notify_level ≤ 1 then []
       else [Event.wake, Event.switchNotifier,
             Event.pulse st.notify_duration, Event.sleepMs 300,
             Event.pulse st.notify_duration, Event.sleepMs 300,
             Event.pulse st.notify_duration, Event.sleepMs 300]) := by
  rcases hc with h | h <;> subst h <;>
    · unfold GB gbTry handleCall
      by_cases hl : st.notify_level ≤ 1 <;>
        simp [hl, lookupP, removeP, gbOk, gbEvents, List.replicate]

/-- Witness for `call_alert_sequence`: an incoming call with a name
field, dispatched above the silent threshold. -/
theorem call_alert_sequence_witness :
    ("incoming" = "incoming" ∨ "incoming" = "outgoing") ∧
    (gbOk (GB (("t", Value.str "call") :: ("cmd", Value.str "incoming") ::
        [("name", Value.str "Alice")]) stLoud) = true ∧
     gbEvents (GB (("t", Value.str "call") :: ("cmd", Value.str "incoming") ::
        [("name", Value.str "Alice")]) stLoud) =
       (if stLoud.notify_level ≤ 1 then []
        else [Event.wake, Event.switchNotifier,
              Event.pulse stLoud.notify_duration, Event.sleepMs 300,
              Event.pulse stLoud.notify_duration, Event.sleepMs 300,
              Event.pulse stLoud.notify_duration, Event.sleepMs 300])) :=
  ⟨Or.inl rfl,
   call_alert_sequence "incoming" (Or.inl rfl) [("name", Value.str "Alice")] stLoud⟩

/-- C9, counterexample: the call-alert path inserts an entry under the
string key "call" — a key that is not an integer id — so not every key
this core inserts is an integer. -/
theorem call_key_not_int :
    st0.notifications = [] ∧
    (lookupStore (Value.str "call")
       (gbState st0 (GB [("t", Value.str "call"),
         ("cmd", Value.str "incoming")] st0)).notifications).isSome = true ∧
    isIntKey (Value.str "call") = false :=
  ⟨rfl, by decide, rfl⟩

/-- C9, amended: only the notify path inserts under the id value carried
by the message; the call-alert path inserts under the string key "call",
the unsupported-task path under "GB_no_task" and the handler-failure
path under "GB_except". -/
theorem inserted_keys_by_path (st : SysState) (idv : Value) (p : Payload)
    (hadm : filter_notifications st.notifFilter (("id", idv) :: p) = true) :
    (gbState st (GB (("t", Value.str "notify") :: ("id", idv) :: p) st)).notifications =
      notifInsert idv p st.notifications ∧
    (gbState st (GB [("t", Value.str "call"), ("cmd", Value.str "incoming")] st)).notifications =
      notifInsert (Value.str "call")
        [("title", Value.str "CALL"), ("body", Value.str " at \ncmd:incoming")]
        st.notifications ∧
    (gbState st (GB [("t", Value.str "frobnicate")] st)).notifications =
      notifInsert (Value.str "GB_no_task")
        [("title", Value.str "GB_no_task"),
         ("body", Value.str "GadgetBridge task not implemented: \"frobnicate\": \"\"")]
        st.notifications ∧
    (gbState st (GB [("t", Value.str "call"), ("cmd", Value.str "rejected")] st)).notifications =
      notifInsert (Value.str "GB_except")
        [("title", Value.str "GB_except"),
         ("body", Value.str "GB error: Untested call notif -  call:cmd:rejected")]
        st.notifications := by
  refine ⟨?_, ?_, ?_, ?_⟩
  · unfold GB
    simp only [show lookupP "t" (("t", Value.str "notify") :: ("id", idv) :: p) =
        some (Value.str "notify") from rfl,
      show removeP "t" (("t", Value.str "notify") :: ("id", idv) :: p) =
        ("id", idv) :: p from rfl]
    simp [gbTry, handleNotify, hadm, lookupP, removeP, gbState]
  · unfold GB gbTry handleCall
    by_cases hl : st.notify_level ≤ 1 <;>
      simp [hl, lookupP, removeP, gbState] <;> rfl
  · unfold GB gbTry handleDefault error_to_notification
    by_cases hl : st.notify_level ≤ 1 <;>
      simp [hl, lookupP, removeP, joinItems, pyStr, gbState] <;> rfl
  · unfold GB gbTry handleCall error_to_notification
    by_cases hl : st.notify_level ≤ 1 <;>
      simp [hl, lookupP, removeP, joinItems, pyStr, gbState] <;> rfl

/-- Witness for `inserted_keys_by_path` at id 5 on the baseline state
(the baseline has no filter attribute, so the payload is admitted). -/
theorem inserted_keys_by_path_witness :
    filter_notifications st0.notifFilter
        (("id", Value.int 5) :: [("src", Value.str "x")]) = true ∧
    ((gbState st0 (GB (("t", Value.str "notify") :: ("id", Value.int 5) ::
        [("src", Value.str "x")]) st0)).notifications =
      notifInsert (Value.int 5) [("src", Value.str "x")] st0.notifications ∧
    (gbState st0 (GB [("t", Value.str "call"), ("cmd", Value.str "incoming")] st0)).notifications =
      notifInsert (Value.str "call")
        [("title", Value.str "CALL"), ("body", Value.str " at \ncmd:incoming")]
        st0.notifications ∧
    (gbState st0 (GB [("t", Value.str "frobnicate")] st0)).notifications =
      notifInsert (Value.str "GB_no_task")
        [("title", Value.str "GB_no_task"),
         ("body", Value.str "GadgetBridge task not implemented: \"frobnicate\": \"\"")]
        st0.notifications ∧
    (gbState st0 (GB [("t", Value.str "call"), ("cmd", Value.str "rejected")] st0)).notifications =
      notifInsert (Value.str "GB_except")
        [("title", Value.str "GB_except"),
         ("body", Value.str "GB error: Untested call notif -  call:cmd:rejected")]
        st0.notifications) :=
  ⟨rfl, inserted_keys_by_path st0 (Value.int 5) [("src", Value.str "x")] rfl⟩

/-- C10: surfacing an unsupported task ("GB_no_task") or a handler
failure ("GB_except") pulses the vibrator exactly once when the
notification level is above the silent threshold, and not at all when it
is at or below it — the same gating as the call alert. -/
theorem error_report_pulse_gating (st : SysState) :
    pulseCount (gbEvents (GB [("t", Value.str "frobnicate")] st)) =
      (if st.notify_level ≤ 1 then 0 else 1) ∧
    pulseCount (gbEvents (GB [("t", Value.str "call"), ("cmd", Value.str "rejected")] st)) =
      (if st.notify_level ≤ 1 then 0 else 1) := by
  constructor <;>
    · unfold GB gbTry handleDefault handleCall error_to_notification
      by_cases hl : st.notify_level ≤ 1 <;>
        simp [hl, lookupP, removeP, gbEvents, pulseCount, List.countP, List.countP.go]
